import Mathlib

/-!
Verification of the resilient-access layer of the claims API
(`src/main.py`) against its specification.

The embedding models:
- the environment-variable configuration read by `get_connection`;
- the backend (connection attempt outcome and query execution outcome)
  as explicit data, so that endpoint behaviour is a pure function of
  the environment, the backend state and the stored table;
- the two claim endpoints `get_claim_status_and_ai` and
  `list_claim_ids_by_status`, the `health` endpoint, and — modelled from
  the spec where the repository source has no implementation — the
  Retry Director (`acquire_with_retry`) and the Readiness Reporter
  (`report_readiness`).

Each endpoint model also returns the number of physical connection
attempts it made, so that single-attempt / no-retry properties are
expressible.
-/

namespace ClaimsApi

/-- The error kinds a `get_connection` call can surface, mirroring the
Python exceptions: `RuntimeError` (missing configuration), `ValueError`
(`int()` on a non-numeric `REDSHIFT_PORT`), and the psycopg2 operational
error raised when the physical connection fails. -/
inductive PyErr where
  | runtimeError (msg : String)
  | valueError (msg : String)
  | operationalError (msg : String)
  deriving Repr, DecidableEq

/-- Message text of an error, as Python string-formats it into `f"DB error: {e}"`. -/
def PyErr.msg : PyErr → String
  | .runtimeError m => m
  | .valueError m => m
  | .operationalError m => m

/-- The five environment variables read by `get_connection`; `none` means
the variable is unset, `some s` that it is set to `s` (possibly empty). -/
structure Env where
  host : Option String
  user : Option String
  pwd : Option String
  db : Option String
  port : Option String
  deriving Repr, DecidableEq

/-- Python truthiness of a string drawn from `os.getenv`: `None` and the
empty string are falsy. -/
def optTruthy : Option String → Bool
  | none => false
  | some s => decide (s ≠ "")

/-- Accumulating decimal parse of a digit list; `none` on the first
non-digit character. -/
def parseDigitsAux : List Char → Nat → Option Nat
  | [], acc => some acc
  | c :: cs, acc =>
    if 48 ≤ c.toNat ∧ c.toNat ≤ 57 then parseDigitsAux cs (acc * 10 + (c.toNat - 48))
    else none

/-- Python `int(s)` on the strings this configuration path sees: an
optional leading minus sign followed by at least one decimal digit;
`none` models the `ValueError` raised otherwise. -/
def pyInt (s : String) : Option Int :=
  match s.toList with
  | [] => none
  | c :: cs =>
    if c = '-' then
      match cs with
      | [] => none
      | _ => (parseDigitsAux cs 0).map (fun n => -(n : Int))
    else (parseDigitsAux (c :: cs) 0).map (fun n => (n : Int))

/-- ASCII lowercasing of one character, as SQL `LOWER` acts on the ASCII
range. -/
def charLower (c : Char) : Char :=
  if 65 ≤ c.toNat ∧ c.toNat ≤ 90 then Char.ofNat (c.toNat + 32) else c

instance {ε α : Type} [DecidableEq ε] [DecidableEq α] : DecidableEq (Except ε α)
  | .ok a, .ok b =>
      if h : a = b then .isTrue (by rw [h])
      else .isFalse (by intro hh; cases hh; exact h rfl)
  | .ok _, .error _ => .isFalse (by intro h; cases h)
  | .error _, .ok _ => .isFalse (by intro h; cases h)
  | .error e, .error f =>
      if h : e = f then .isTrue (by rw [h])
      else .isFalse (by intro hh; cases hh; exact h rfl)

/-- One request's view of the backend: the outcome of a physical
connection attempt and the outcome of executing a query on it.
`Except.error e` carries the failure detail string. -/
structure Backend where
  connect : Except String Unit
  query : Except String Unit
  deriving Repr, DecidableEq

/-- Embedding of `get_connection` (src/main.py:12-41).  Reads
`REDSHIFT_HOST/USER/PASSWORD` with no default, `REDSHIFT_DB` defaulting
to `"dev"`, `REDSHIFT_PORT` defaulting to `"5439"` and converted with
`int()`; raises `RuntimeError` when `all([host, user, pwd, db, port])`
is falsy, otherwise performs one physical connection attempt.  The
second component counts physical connection attempts (0 when a
configuration error fires first). -/
def get_connection (env : Env) (b : Backend) : Except PyErr Unit × Nat :=
  let host := env.host
  let user := env.user
  let pwd := env.pwd
  let db := env.db.getD "dev"
  match pyInt (env.port.getD "5439") with
  | none => (.error (.valueError "invalid literal for int() with base 10"), 0)
  | some port =>
    if optTruthy host && optTruthy user && optTruthy pwd
        && decide (db ≠ "") && decide (port ≠ 0) then
      match b.connect with
      | .ok _ => (.ok (), 1)
      | .error e => (.error (.operationalError e), 1)
    else
      (.error (.runtimeError "Missing Redshift connection environment variables"), 0)

/-- A stored row of `aicp_insurance.claims_processed`.  `inserted_at` is
the ingestion timestamp in days (any totally ordered integer timescale
works for the ordering and lookback-window logic). -/
structure Row where
  claim_id : String
  claim_status : String
  fraud_prediction : Option String
  fraud_score : Option ℚ
  fraud_explanation : Option String
  inserted_at : Int
  deriving Repr, DecidableEq

/-- The nested `ai` object of a successful single-claim response
(src/main.py:92-96). -/
structure AiView where
  fraud_prediction : Option String
  fraud_score : Option ℚ
  fraud_explanation : Option String
  deriving Repr, DecidableEq

/-- A successful single-claim response body (src/main.py:89-97). -/
structure ClaimView where
  claim_id : String
  status : String
  ai : AiView
  deriving Repr, DecidableEq

/-- The `float(row["fraud_score"]) if row["fraud_score"] is not None else
None` coercion (src/main.py:94): a SQL NULL stays an explicit absent
value; a numeric value is coerced to a number. -/
def coerceScore : Option ℚ → Option ℚ
  | none => none
  | some v => some v

/-- Response shaping of a fetched row (src/main.py:89-97). -/
def mkView (r : Row) : ClaimView :=
  { claim_id := r.claim_id
    status := r.claim_status
    ai :=
      { fraud_prediction := r.fraud_prediction
        fraud_score := coerceScore r.fraud_score
        fraud_explanation := r.fraud_explanation } }

/-- Fold step keeping the row with the larger `inserted_at` (the earlier
row on ties). -/
def pickNewer (acc : Option Row) (r : Row) : Option Row :=
  match acc with
  | none => some r
  | some m => if m.inserted_at < r.inserted_at then some r else some m

/-- `ORDER BY inserted_at DESC LIMIT 1` over a row multiset: one row of
maximal `inserted_at` (the first such row under a left fold, matching a
deterministic execution of the unspecified tie order). -/
def topByInsertedAt (rows : List Row) : Option Row :=
  rows.foldl pickNewer none

/-- An HTTP error response: status code plus detail string, as carried by
`HTTPException(status_code=..., detail=...)`. -/
structure HTTPError where
  code : Nat
  detail : String
  deriving Repr, DecidableEq

/-- The HTTP status code of an endpoint outcome, `none` on success. -/
def resultCode {α : Type} : Except HTTPError α → Option Nat
  | .error h => some h.code
  | .ok _ => none

/-- Embedding of the `GET /v1/claims/claim_id` handler
`get_claim_status_and_ai` (src/main.py:62-101): acquire a connection,
run the `WHERE claim_id = %s ORDER BY inserted_at DESC LIMIT 1` query,
404 on zero rows, 500 (`"DB error: ..."`) on any other exception; a
404 `HTTPException` is re-raised unchanged.  The second component counts
physical connection attempts. -/
def get_claim_status_and_ai (env : Env) (b : Backend) (table : List Row)
    (claim_id : String) : Except HTTPError ClaimView × Nat :=
  match get_connection env b with
  | (.error e, n) => (.error ⟨500, "DB error: " ++ e.msg⟩, n)
  | (.ok _, n) =>
    match b.query with
    | .error e => (.error ⟨500, "DB error: " ++ e⟩, n)
    | .ok _ =>
      match topByInsertedAt (table.filter (fun r => r.claim_id == claim_id)) with
      | none => (.error ⟨404, "Claim " ++ claim_id ++ " not found"⟩, n)
      | some row => (.ok (mkView row), n)

/-- Is `c` an ASCII lowercase letter or digit, i.e. in the class
`[a-z0-9]` of the case-sensitive regular expression at src/main.py:122? -/
def isLowerAlnum (c : Char) : Bool :=
  (decide (97 ≤ c.toNat) && decide (c.toNat ≤ 122))
    || (decide (48 ≤ c.toNat) && decide (c.toNat ≤ 57))

/-- The normalization the SQL actually computes (src/main.py:122-123):
`LOWER(REGEXP_REPLACE(s, '[^a-z0-9]+', ''))` — first strip every
character outside `[a-z0-9]` (the regex is case-sensitive, so uppercase
letters are stripped too), then lowercase what is left. -/
def codeNorm (s : String) : String :=
  String.mk (((s.toList.filter isLowerAlnum)).map charLower)

/-- Is `c` an ASCII letter (either case) or digit? -/
def isAsciiAlnum (c : Char) : Bool :=
  (decide (97 ≤ c.toNat) && decide (c.toNat ≤ 122))
    || (decide (65 ≤ c.toNat) && decide (c.toNat ≤ 90))
    || (decide (48 ≤ c.toNat) && decide (c.toNat ≤ 57))

/-- The normalization in the spec's words, for refinement comparison
with `codeNorm`: strip every character that is not an ASCII letter or
digit, then lowercase the remainder. -/
def specNorm (s : String) : String :=
  String.mk ((s.toList.filter isAsciiAlnum).map charLower)

/-- The response body of `GET /v1/claims/status/claim_status`
(src/main.py:134-140). -/
structure ListResp where
  status : String
  days : Int
  limit : Int
  count : Nat
  claim_ids : List String
  deriving Repr, DecidableEq

/-- FastAPI validation of an optional integer query parameter declared
`Query(default=d, ge=lo, le=hi)` (src/main.py:110-111): an omitted
parameter takes the default; a supplied value outside `[lo, hi]` is
rejected with a 422 validation error before the handler runs. -/
def validateParam (default lo hi : Int) : Option Int → Except Unit Int
  | none => .ok default
  | some v => if lo ≤ v ∧ v ≤ hi then .ok v else .error ()

/-- Insert a row into a list sorted by `inserted_at` descending,
keeping the sort stable. -/
def insertDesc (r : Row) : List Row → List Row
  | [] => [r]
  | x :: xs => if x.inserted_at < r.inserted_at then r :: x :: xs else x :: insertDesc r xs

/-- `ORDER BY inserted_at DESC` (one deterministic execution of the
unspecified tie order). -/
def sortByInsertedDesc : List Row → List Row
  | [] => []
  | x :: xs => insertDesc x (sortByInsertedDesc xs)

/-- Embedding of the `GET /v1/claims/status/claim_status` handler
`list_claim_ids_by_status` (src/main.py:107-142).  `now` is `GETDATE()`
on the `inserted_at` timescale; the lookback predicate is
`inserted_at >= DATEADD(day, -days, GETDATE())`.  Status matching uses
`codeNorm` on both sides.  Parameter validation (422) happens before any
backend contact; backend failures map to 500.  The second component
counts physical connection attempts. -/
def list_claim_ids_by_status (env : Env) (b : Backend) (table : List Row)
    (now : Int) (claim_status : String) (daysQ limitQ : Option Int) :
    Except HTTPError ListResp × Nat :=
  match validateParam 7 1 90 daysQ with
  | .error _ => (.error ⟨422, "validation error on days"⟩, 0)
  | .ok days =>
  match validateParam 50 1 500 limitQ with
  | .error _ => (.error ⟨422, "validation error on limit"⟩, 0)
  | .ok lim =>
  match get_connection env b with
  | (.error e, n) => (.error ⟨500, "DB error: " ++ e.msg⟩, n)
  | (.ok _, n) =>
    match b.query with
    | .error e => (.error ⟨500, "DB error: " ++ e⟩, n)
    | .ok _ =>
      let qualifying := table.filter
        (fun r => codeNorm r.claim_status == codeNorm claim_status
          && decide (now - days ≤ r.inserted_at))
      let ids := ((sortByInsertedDesc qualifying).take lim.toNat).map Row.claim_id
      (.ok ⟨claim_status, days, lim, ids.length, ids⟩, n)

/-- The body returned by `GET /health` (src/main.py:46-56): always
`status: "ok"`, with a `db` field reporting the backend round-trip
outcome. -/
structure HealthResp where
  status : String
  db : String
  deriving Repr, DecidableEq

/-- Embedding of the `GET /health` handler (src/main.py:46-56): it
acquires a connection and runs `SELECT 1;`, and converts every exception
into a `db: "error: ..."` field while still answering
`status: "ok"`.  The second component counts physical connection
attempts. -/
def health (env : Env) (b : Backend) : HealthResp × Nat :=
  match get_connection env b with
  | (.error e, n) => (⟨"ok", "error: " ++ e.msg⟩, n)
  | (.ok _, n) =>
    match b.query with
    | .error e => (⟨"ok", "error: " ++ e⟩, n)
    | .ok _ => (⟨"ok", "ok"⟩, n)

/-- The body of a readiness report: a boolean plus optional reason. -/
structure ReadyResp where
  ready : Bool
  reason : Option String
  deriving Repr, DecidableEq

/-- Modelled from the spec: the repository source under src/ has no
readiness endpoint (only `/health`); §4.4 "Readiness Reporter" specifies
`report_readiness() -> (ready, reason?)` — exactly one connection
acquire followed by one trivial round-trip query, never retrying; on any
failure it returns `ready = false` with a human-readable reason derived
from the underlying failure, and never raises.  The second component
counts physical connection attempts. -/
def report_readiness (b : Backend) : ReadyResp × Nat :=
  match b.connect with
  | .error e => (⟨false, some ("connect failed: " ++ e)⟩, 1)
  | .ok _ =>
    match b.query with
    | .error e => (⟨false, some ("query failed: " ++ e)⟩, 1)
    | .ok _ => (⟨true, none⟩, 1)

/-- The observable trace of one Retry Director invocation: the final
outcome, how many physical connection attempts were made, and the
sequence of backoff sleeps (in time units) between consecutive
attempts. -/
structure RetryTrace where
  result : Except String Unit
  attempts : Nat
  sleeps : List ℚ
  deriving Repr, DecidableEq

/-- Recursion for `acquire_with_retry`: `i` is the current attempt
index, the second argument the number of attempts still permitted. -/
def acquireGo (connect : Nat → Except String Unit) (base_delay cap : ℚ) :
    Nat → Nat → RetryTrace
  | _, 0 => ⟨.error "no attempts permitted", 0, []⟩
  | i, 1 =>
    match connect i with
    | .ok u => ⟨.ok u, 1, []⟩
    | .error e => ⟨.error e, 1, []⟩
  | i, r + 2 =>
    match connect i with
    | .ok u => ⟨.ok u, 1, []⟩
    | .error _ =>
      let t := acquireGo connect base_delay cap (i + 1) (r + 1)
      ⟨t.result, t.attempts + 1, min cap (base_delay * 2 ^ i) :: t.sleeps⟩

/-- Modelled from the spec: the repository source under src/ has no
Retry Director (`get_connection` makes a single attempt); §4.2 specifies
`acquire_with_retry(max_attempts, base_delay)` — call the Connection
Factory repeatedly, sleeping `min(cap, base_delay * 2 ^ attempt_index)`
between consecutive attempts (indices starting at 0), and after
`max_attempts` consecutive failures fail with a `ConnectError` carrying
the last underlying failure's detail.  `connect i` is the outcome of
the `i`-th physical attempt. -/
def acquire_with_retry (connect : Nat → Except String Unit)
    (max_attempts : Nat) (base_delay cap : ℚ) : RetryTrace :=
  acquireGo connect base_delay cap 0 max_attempts

/-! Concrete fixtures used by witnesses and counterexamples. -/

/-- A fully configured environment (all five variables set, port parseable). -/
def envGood : Env := ⟨some "h", some "u", some "p", some "dev", some "5439"⟩

/-- `REDSHIFT_HOST` unset, everything else configured. -/
def envNoHost : Env := ⟨none, some "u", some "p", some "dev", some "5439"⟩

/-- Host, user and password set and non-empty, but `REDSHIFT_DB` set to
the empty string and `REDSHIFT_PORT` unset. -/
def envEmptyDb : Env := ⟨some "h", some "u", some "p", some "", none⟩

/-- A healthy backend: connection and query both succeed. -/
def bGood : Backend := ⟨.ok (), .ok ()⟩

/-- A backend whose physical connection attempt fails. -/
def bConnFail : Backend := ⟨.error "connection refused", .ok ()⟩

/-- A backend that connects but whose query execution fails. -/
def bQueryFail : Backend := ⟨.ok (), .error "query canceled on statement timeout"⟩

/-- Older row for claim `c1`. -/
def r1 : Row := ⟨"c1", "in review", some "fraud", some 3, some "expl", 5⟩

/-- Newer row for claim `c1` (a reprocessing), with a NULL fraud score. -/
def r2 : Row := ⟨"c1", "approved", none, none, none, 9⟩

/-- A row for claim `c2` with status `in review`, recently inserted. -/
def r3 : Row := ⟨"c2", "in review", none, some 1, none, 99⟩

/-- A recently inserted row whose stored status is `in review`. -/
def rowInReview : Row := ⟨"c9", "in review", none, none, none, 100⟩

end ClaimsApi

namespace ClaimsApi

/-! Helper lemmas. -/

/-- `get_connection` makes at most one physical connection attempt. -/
theorem get_connection_attempts_le_one (env : Env) (b : Backend) :
    (get_connection env b).2 ≤ 1 := by
  unfold get_connection
  rcases hport : pyInt (env.port.getD "5439") with _ | p <;> simp only [hport]
  · simp
  · split
    · rcases hc : b.connect with e | u <;> simp [hc]
    · simp

/-- A successful `get_connection` made exactly one physical connection
attempt, and that attempt succeeded. -/
theorem get_connection_ok_pair (env : Env) (b : Backend)
    (h : (get_connection env b).1 = .ok ()) :
    get_connection env b = (.ok (), 1) ∧ b.connect = .ok () := by
  unfold get_connection at h ⊢
  rcases hport : pyInt (env.port.getD "5439") with _ | p <;>
    simp only [hport] at h ⊢
  · simp at h
  · split at h
    · rename_i hcond
      rw [if_pos hcond]
      rcases hc : b.connect with e | u
      · rw [hc] at h; simp at h
      · cases u
        exact ⟨rfl, rfl⟩
    · rename_i hcond
      simp at h

/-- Unrolling of `acquireGo` over a backend whose every attempt fails:
starting at attempt index `i` with `r + 1` permitted attempts, it makes
`r + 1` attempts, sleeps `min cap (base * 2 ^ (i + j))` after the `j`-th
of the first `r` failures, and surfaces the detail of the last attempt. -/
theorem acquireGo_allFail (connect : Nat → Except String Unit) (f : Nat → String)
    (hf : ∀ j, connect j = .error (f j)) (b c : ℚ) :
    ∀ (r i : Nat), acquireGo connect b c i (r + 1) =
      ⟨.error (f (i + r)), r + 1,
        (List.range r).map (fun j => min c (b * 2 ^ (i + j)))⟩ := by
  intro r
  induction r with
  | zero =>
    intro i
    simp [acquireGo, hf i]
  | succ r ih =>
    intro i
    have h2 := ih (i + 1)
    simp only [acquireGo, hf i, h2]
    have e1 : i + 1 + r = i + (r + 1) := by omega
    rw [e1, RetryTrace.mk.injEq]
    refine ⟨rfl, rfl, ?_⟩
    rw [List.range_succ_eq_map, List.map_cons, List.map_map]
    rw [List.cons.injEq]
    constructor
    · norm_num
    · refine List.map_congr_left ?_
      intro j _
      simp only [Function.comp]
      have e2 : i + 1 + j = i + (j + 1) := by omega
      rw [e2]

/-- C1: for every backend that always fails to connect,
`acquire_with_retry(max_attempts, base_delay)` makes exactly
`max_attempts` connection attempts, sleeping
`min(cap, base_delay * 2 ^ attempt_index)` between consecutive attempts
(indices 0, …, max_attempts - 2), then fails with a `ConnectError`
carrying the last underlying failure's detail; in particular it
terminates after a bounded number of attempts and never retries
indefinitely. -/
theorem retry_allFail_bound (connect : Nat → Except String Unit) (f : Nat → String)
    (n : Nat) (b c : ℚ) (hn : 1 ≤ n) (hf : ∀ j, connect j = .error (f j)) :
    acquire_with_retry connect n b c =
      ⟨.error (f (n - 1)), n,
        (List.range (n - 1)).map (fun j => min c (b * 2 ^ j))⟩ := by
  obtain ⟨r, rfl⟩ : ∃ r, n = r + 1 := ⟨n - 1, by omega⟩
  have h := acquireGo_allFail connect f hf b c r 0
  simpa [acquire_with_retry] using h

/-- C1 witness: a backend failing every attempt with detail `"fail"`,
`max_attempts = 3`, `base_delay = 1`, `cap = 8`: exactly 3 attempts,
sleeps `[1, 2]` (cumulative delay `d + 2d` with `d = 1`), final error
`"fail"`. -/
theorem retry_allFail_bound_witness :
    acquire_with_retry (fun _ => .error "fail") 3 1 8 =
      ⟨.error "fail", 3, [1, 2]⟩ := by
  have h := retry_allFail_bound (fun _ => .error "fail") (fun _ => "fail") 3 1 8
    (by norm_num) (fun _ => rfl)
  rw [h]
  simp only [RetryTrace.mk.injEq]
  refine ⟨trivial, trivial, ?_⟩
  norm_num [List.range_succ, min_def]

/-- C2 counterexample: with a fully configured environment and a healthy
backend, `GET /health` makes one physical backend connection attempt —
not zero — refuting "performs no backend interaction"; and its body is a
`status`/`db` pair, not an `ok: true` body. -/
theorem health_contacts_backend :
    (health envGood bGood).2 = 1 ∧ ¬(health envGood bGood).2 = 0 ∧
    (health envGood bGood).1 = ⟨"ok", "ok"⟩ := by decide

/-- C2 amended: for every environment (including one with no backend
configured at all) and every backend state, `GET /health` returns a
body whose `status` field is `"ok"` — it cannot fail — but it performs
up to one backend interaction (a connection attempt plus a `SELECT 1;`
round-trip) and reports the backend outcome in a `db` field, rather
than performing none. -/
theorem health_always_ok (env : Env) (b : Backend) :
    (health env b).1.status = "ok" ∧ (health env b).2 ≤ 1 := by
  have hn : (get_connection env b).2 ≤ 1 := get_connection_attempts_le_one env b
  unfold health
  rcases hgc : get_connection env b with ⟨res, n⟩
  rw [hgc] at hn
  cases res with
  | error e => exact ⟨rfl, hn⟩
  | ok u =>
    cases hq : b.query with
    | error e => exact ⟨rfl, hn⟩
    | ok v => exact ⟨rfl, hn⟩

/-- A string with the non-empty prefix `"connect failed: "` or
`"query failed: "` is non-empty. -/
theorem prefixed_reason_ne_empty (p e : String) (hp : p.data ≠ []) :
    p ++ e ≠ "" := by
  intro h
  apply hp
  have hd := congrArg String.data h
  rw [String.data_append] at hd
  exact (List.append_eq_nil.mp hd).1

/-- C3: the readiness operation makes exactly one connection attempt
(never retrying) followed by one trivial round-trip query; it is ready
exactly when both succeed, and on every failure mode (connect failure —
including timeout, which psycopg2 surfaces as a connect error — or query
failure) it returns `ready = false` together with a non-empty
human-readable reason, as a return value rather than a raised error
(the model is a total function). -/
theorem readiness_single_attempt_never_raises (b : Backend) :
    (report_readiness b).2 = 1 ∧
    ((report_readiness b).1.ready = true ↔ b.connect = .ok () ∧ b.query = .ok ()) ∧
    ((report_readiness b).1.ready = false →
      ∃ r, (report_readiness b).1.reason = some r ∧ r ≠ "") := by
  unfold report_readiness
  rcases hc : b.connect with e | u
  · refine ⟨rfl, ?_, ?_⟩
    · simp [hc]
    · intro _
      exact ⟨"connect failed: " ++ e, rfl, prefixed_reason_ne_empty _ e (by decide)⟩
  · cases u
    rcases hq : b.query with e | v
    · refine ⟨rfl, ?_, ?_⟩
      · simp [hq]
      · intro _
        exact ⟨"query failed: " ++ e, rfl, prefixed_reason_ne_empty _ e (by decide)⟩
    · cases v
      refine ⟨rfl, ?_, ?_⟩
      · simp
      · intro h
        simp at h

/-- C3 witness: an unreachable backend yields one attempt and
`ready = false` with a non-empty reason. -/
theorem readiness_single_attempt_never_raises_witness :
    (report_readiness bConnFail).2 = 1 ∧
    ∃ r, (report_readiness bConnFail).1.reason = some r ∧ r ≠ "" := by
  have h := readiness_single_attempt_never_raises bConnFail
  exact ⟨h.1, h.2.2 (by decide)⟩

/-- Any connect or query failure makes the single-claim endpoint answer
HTTP 500. -/
theorem fetch_500_of_backend_failure (env : Env) (b : Backend) (table : List Row)
    (cid : String)
    (hb : (∃ e, b.connect = .error e) ∨ (∃ e, b.query = .error e)) :
    resultCode (get_claim_status_and_ai env b table cid).1 = some 500 := by
  unfold get_claim_status_and_ai
  rcases hg : get_connection env b with ⟨res, n⟩
  cases res with
  | error e => rfl
  | ok u =>
    cases u
    have hfst : (get_connection env b).1 = .ok () := by rw [hg]
    have hconn := (get_connection_ok_pair env b hfst).2
    rcases hb with ⟨e, he⟩ | ⟨e, he⟩
    · rw [hconn] at he; cases he
    · rw [he]; rfl

/-- A 404 from the single-claim endpoint can only arise with a healthy
backend: connection and query both succeeded. -/
theorem fetch_404_only_healthy (env : Env) (b : Backend) (table : List Row)
    (cid : String)
    (h : resultCode (get_claim_status_and_ai env b table cid).1 = some 404) :
    b.connect = .ok () ∧ b.query = .ok () := by
  unfold get_claim_status_and_ai at h
  rcases hg : get_connection env b with ⟨res, n⟩
  rw [hg] at h
  cases res with
  | error e => simp [resultCode] at h
  | ok u =>
    cases u
    have hfst : (get_connection env b).1 = .ok () := by rw [hg]
    have hconn := (get_connection_ok_pair env b hfst).2
    rcases hq : b.query with e | v
    · rw [hq] at h; simp [resultCode] at h
    · cases v
      exact ⟨hconn, rfl⟩

/-- Any connect or query failure makes the status-listing endpoint
answer HTTP 500 (given parameters that pass validation). -/
theorem list_500_of_backend_failure (env : Env) (b : Backend) (table : List Row)
    (now : Int) (st : String) (daysQ limQ : Option Int) (dd ll : Int)
    (hd : validateParam 7 1 90 daysQ = .ok dd)
    (hl : validateParam 50 1 500 limQ = .ok ll)
    (hb : (∃ e, b.connect = .error e) ∨ (∃ e, b.query = .error e)) :
    resultCode (list_claim_ids_by_status env b table now st daysQ limQ).1 = some 500 := by
  unfold list_claim_ids_by_status
  rw [hd, hl]
  rcases hg : get_connection env b with ⟨res, n⟩
  cases res with
  | error e => rfl
  | ok u =>
    cases u
    have hfst : (get_connection env b).1 = .ok () := by rw [hg]
    have hconn := (get_connection_ok_pair env b hfst).2
    rcases hb with ⟨e, he⟩ | ⟨e, he⟩
    · rw [hconn] at he; cases he
    · rw [he]; rfl

/-- The status-listing endpoint never answers 404: an empty result set
is a success, and its failures are 422 or 500. -/
theorem list_never_404 (env : Env) (b : Backend) (table : List Row)
    (now : Int) (st : String) (daysQ limQ : Option Int) :
    resultCode (list_claim_ids_by_status env b table now st daysQ limQ).1 ≠ some 404 := by
  unfold list_claim_ids_by_status
  rcases hdq : validateParam 7 1 90 daysQ with u | dd
  · simp [resultCode]
  · rcases hlq : validateParam 50 1 500 limQ with u | ll
    · simp [resultCode]
    · rcases hg : get_connection env b with ⟨res, n⟩
      cases res with
      | error e => simp [resultCode]
      | ok u =>
        cases u
        rcases hq : b.query with e | v
        · simp [resultCode]
        · simp [resultCode]

/-- C4: every backend failure during connection acquisition or query
execution makes both `fetch_claim` and `list_claims_by_status` fail with
the service-level server error (HTTP 500, `"DB error: ..."`), and this
outcome is distinct from `NotFound`: a 404 arises only when connection
and query both succeeded (so a `NotFound` is never converted into the
backend-failure error and vice versa), and the listing endpoint has no
404 outcome at all. -/
theorem backend_failure_500_distinct_404 (env : Env) (b : Backend)
    (table : List Row) (cid st : String) (daysQ limQ : Option Int)
    (now : Int) (dd ll : Int)
    (hd : validateParam 7 1 90 daysQ = .ok dd)
    (hl : validateParam 50 1 500 limQ = .ok ll) :
    (((∃ e, b.connect = .error e) ∨ (∃ e, b.query = .error e)) →
      resultCode (get_claim_status_and_ai env b table cid).1 = some 500 ∧
      resultCode (list_claim_ids_by_status env b table now st daysQ limQ).1 = some 500) ∧
    (resultCode (get_claim_status_and_ai env b table cid).1 = some 404 →
      b.connect = .ok () ∧ b.query = .ok ()) ∧
    resultCode (list_claim_ids_by_status env b table now st daysQ limQ).1 ≠ some 404 ∧
    (500 : Nat) ≠ 404 := by
  refine ⟨?_, ?_, ?_, by decide⟩
  · intro hb
    exact ⟨fetch_500_of_backend_failure env b table cid hb,
      list_500_of_backend_failure env b table now st daysQ limQ dd ll hd hl hb⟩
  · exact fetch_404_only_healthy env b table cid
  · exact list_never_404 env b table now st daysQ limQ

/-- C4 witness: with default parameters and a backend whose connection
attempt fails, both endpoints answer 500, not 404. -/
theorem backend_failure_500_distinct_404_witness :
    resultCode (get_claim_status_and_ai envGood bConnFail [] "c1").1 = some 500 ∧
    resultCode (list_claim_ids_by_status envGood bConnFail [] 0 "s" none none).1 = some 500 := by
  have h := backend_failure_500_distinct_404 envGood bConnFail [] "c1" "s"
    none none 0 7 50 rfl rfl
  exact h.1 (Or.inl ⟨"connection refused", rfl⟩)

/-- C5: the normalization the SQL computes is not the spec's
strip-non-alphanumerics-then-lowercase.  `"INREVIEW"`, `"in_review"` and
`"in review"` all have the same spec normalization, yet the code's
`LOWER(REGEXP_REPLACE(s, '[^a-z0-9]+', ''))` strips the uppercase
letters of `"INREVIEW"` before lowercasing (the regex class is
case-sensitive), normalizing it to `""`; consequently, against a table
holding one in-window row with stored status `"in review"`, the listing
returns the row for supplied status `"in_review"` but an empty result
set for `"INREVIEW"` — contradicting the handler's own docstring
("remove non-alphanumerics, lowercase", "robust to … case"). -/
theorem status_norm_case_bug :
    specNorm "INREVIEW" = specNorm "in_review" ∧
    specNorm "in_review" = specNorm "in review" ∧
    codeNorm "INREVIEW" ≠ codeNorm "in review" ∧
    (list_claim_ids_by_status envGood bGood [rowInReview] 100 "in_review" none none).1
      = .ok ⟨"in_review", 7, 50, 1, ["c9"]⟩ ∧
    (list_claim_ids_by_status envGood bGood [rowInReview] 100 "INREVIEW" none none).1
      = .ok ⟨"INREVIEW", 7, 50, 0, []⟩ := by decide

/-- A left fold of `pickNewer` started at `some m` yields a row from
`{m} ∪ l` whose `inserted_at` dominates `m` and every element of `l`. -/
theorem foldl_pickNewer_spec (l : List Row) (m : Row) :
    ∃ r, l.foldl pickNewer (some m) = some r ∧ (r = m ∨ r ∈ l) ∧
      m.inserted_at ≤ r.inserted_at ∧ ∀ x ∈ l, x.inserted_at ≤ r.inserted_at := by
  induction l generalizing m with
  | nil => exact ⟨m, rfl, Or.inl rfl, le_refl _, by simp⟩
  | cons x xs ih =>
    simp only [List.foldl_cons]
    by_cases hlt : m.inserted_at < x.inserted_at
    · have hstep : pickNewer (some m) x = some x := by simp [pickNewer, hlt]
      rw [hstep]
      obtain ⟨r, hr, hmem, hle, hall⟩ := ih x
      refine ⟨r, hr, ?_, le_of_lt (lt_of_lt_of_le hlt hle), ?_⟩
      · rcases hmem with h | h
        · exact Or.inr (h ▸ List.mem_cons_self x xs)
        · exact Or.inr (List.mem_cons_of_mem x h)
      · intro y hy
        rcases List.mem_cons.mp hy with h | h
        · exact h ▸ hle
        · exact hall y h
    · have hstep : pickNewer (some m) x = some m := by simp [pickNewer, hlt]
      rw [hstep]
      obtain ⟨r, hr, hmem, hle, hall⟩ := ih m
      refine ⟨r, hr, ?_, hle, ?_⟩
      · rcases hmem with h | h
        · exact Or.inl h
        · exact Or.inr (List.mem_cons_of_mem x h)
      · intro y hy
        rcases List.mem_cons.mp hy with h | h
        · exact h ▸ le_trans (le_of_not_lt hlt) hle
        · exact hall y h

/-- On a non-empty row list, `ORDER BY inserted_at DESC LIMIT 1` returns
a member whose `inserted_at` is maximal. -/
theorem topByInsertedAt_spec (l : List Row) (hne : l ≠ []) :
    ∃ r, topByInsertedAt l = some r ∧ r ∈ l ∧
      ∀ x ∈ l, x.inserted_at ≤ r.inserted_at := by
  match l, hne with
  | x :: xs, _ =>
    obtain ⟨r, hr, hmem, _, hall⟩ := foldl_pickNewer_spec xs x
    refine ⟨r, ?_, ?_, ?_⟩
    · simpa [topByInsertedAt, pickNewer] using hr
    · rcases hmem with h | h
      · exact h ▸ List.mem_cons_self x xs
      · exact List.mem_cons_of_mem x h
    · intro y hy
      rcases List.mem_cons.mp hy with h | h
      · obtain ⟨_, _, _, hle2, _⟩ := foldl_pickNewer_spec xs x
        exact h ▸ (by
          obtain ⟨r2, hr2, _, hle3, _⟩ := foldl_pickNewer_spec xs x
          rw [hr] at hr2
          cases hr2
          exact hle3)
      · exact hall y h

/-- C6: for every `claim_id` with at least one stored row and a healthy
backend, `fetch_claim` succeeds with the view of a stored row for that
identifier whose `inserted_at` is maximal among all rows sharing it. -/
theorem fetch_claim_most_recent (env : Env) (b : Backend) (table : List Row)
    (cid : String)
    (hcfg : (get_connection env b).1 = .ok ()) (hq : b.query = .ok ())
    (hrow : ∃ r ∈ table, r.claim_id = cid) :
    ∃ r, r ∈ table ∧ r.claim_id = cid ∧
      (∀ x ∈ table, x.claim_id = cid → x.inserted_at ≤ r.inserted_at) ∧
      (get_claim_status_and_ai env b table cid).1 = .ok (mkView r) := by
  set l := table.filter (fun x => x.claim_id == cid) with hl
  have hne : l ≠ [] := by
    obtain ⟨r0, hr0, hid⟩ := hrow
    intro h
    have hmem0 : r0 ∈ l := by
      rw [hl]
      exact List.mem_filter.mpr ⟨hr0, by simp [hid]⟩
    rw [h] at hmem0
    simp at hmem0
  obtain ⟨r, htop, hmem, hall⟩ := topByInsertedAt_spec l hne
  have hmem2 := List.mem_filter.mp (hl ▸ hmem)
  refine ⟨r, hmem2.1, by simpa using hmem2.2, ?_, ?_⟩
  · intro x hx hxid
    exact hall x (hl ▸ List.mem_filter.mpr ⟨hx, by simp [hxid]⟩)
  · have hpair := get_connection_ok_pair env b hcfg
    unfold get_claim_status_and_ai
    rw [hpair.1, hq, ← hl, htop]

/-- C6 witness: on a table where claim `c1` has rows at times 5 and 9,
the endpoint returns the view of the time-9 row. -/
theorem fetch_claim_most_recent_witness :
    ∃ r, r ∈ [r1, r2, r3] ∧ r.claim_id = "c1" ∧
      (∀ x ∈ [r1, r2, r3], x.claim_id = "c1" → x.inserted_at ≤ r.inserted_at) ∧
      (get_claim_status_and_ai envGood bGood [r1, r2, r3] "c1").1 = .ok (mkView r) :=
  fetch_claim_most_recent envGood bGood [r1, r2, r3] "c1" (by decide) rfl
    ⟨r1, by simp, by decide⟩

/-- C7: for every `claim_id` with zero matching stored rows, a healthy
backend makes `fetch_claim` fail with `NotFound` (HTTP 404, with the
`"Claim … not found"` detail), after exactly one connection attempt —
the 404 is never retried. -/
theorem fetch_claim_not_found (env : Env) (b : Backend) (table : List Row)
    (cid : String)
    (hcfg : (get_connection env b).1 = .ok ()) (hq : b.query = .ok ())
    (hnone : ∀ r ∈ table, r.claim_id ≠ cid) :
    (get_claim_status_and_ai env b table cid).1 =
      .error ⟨404, "Claim " ++ cid ++ " not found"⟩ ∧
    (get_claim_status_and_ai env b table cid).2 = 1 := by
  have hpair := get_connection_ok_pair env b hcfg
  have hfilter : table.filter (fun r => r.claim_id == cid) = [] := by
    rw [List.filter_eq_nil_iff]
    intro a ha
    simp [hnone a ha]
  unfold get_claim_status_and_ai
  rw [hpair.1, hq, hfilter]
  exact ⟨rfl, rfl⟩

/-- C7 witness: claim `zzz` has no rows; the answer is 404 after one
attempt. -/
theorem fetch_claim_not_found_witness :
    (get_claim_status_and_ai envGood bGood [r1] "zzz").1 =
      .error ⟨404, "Claim " ++ "zzz" ++ " not found"⟩ ∧
    (get_claim_status_and_ai envGood bGood [r1] "zzz").2 = 1 :=
  fetch_claim_not_found envGood bGood [r1] "zzz" (by decide) rfl (by decide)

/-- C8: a supplied `days` outside 1–90 or `limit` outside 1–500 is
rejected with a 422 validation error before reaching the query, and a
request omitting both parameters runs with the defaults `days = 7`,
`limit = 50`, which are echoed in the response. -/
theorem list_param_validation_defaults (env : Env) (b : Backend)
    (table : List Row) (now : Int) (st : String) (d l : Int)
    (daysQ limQ : Option Int) :
    ((d < 1 ∨ 90 < d) →
      resultCode (list_claim_ids_by_status env b table now st (some d) limQ).1
        = some 422) ∧
    ((l < 1 ∨ 500 < l) →
      resultCode (list_claim_ids_by_status env b table now st daysQ (some l)).1
        = some 422) ∧
    (∀ resp, (list_claim_ids_by_status env b table now st none none).1 = .ok resp →
      resp.days = 7 ∧ resp.limit = 50) := by
  refine ⟨?_, ?_, ?_⟩
  · intro hdout
    have hval : validateParam 7 1 90 (some d) = .error () := by
      show (if 1 ≤ d ∧ d ≤ 90 then Except.ok d else Except.error ()) = .error ()
      rw [if_neg]
      omega
    unfold list_claim_ids_by_status
    rw [hval]
    rfl
  · intro hlout
    have hval : validateParam 50 1 500 (some l) = .error () := by
      show (if 1 ≤ l ∧ l ≤ 500 then Except.ok l else Except.error ()) = .error ()
      rw [if_neg]
      omega
    unfold list_claim_ids_by_status
    rcases hdq : validateParam 7 1 90 daysQ with u | dd
    · rfl
    · rw [hval]
      rfl
  · intro resp hresp
    unfold list_claim_ids_by_status at hresp
    have h7 : validateParam 7 1 90 none = .ok 7 := rfl
    have h50 : validateParam 50 1 500 none = .ok 50 := rfl
    rw [h7, h50] at hresp
    rcases hg : get_connection env b with ⟨res, n⟩
    rw [hg] at hresp
    cases res with
    | error e => simp at hresp
    | ok u =>
      cases u
      rcases hq : b.query with e | v
      · rw [hq] at hresp; simp at hresp
      · rw [hq] at hresp
        simp only [Except.ok.injEq] at hresp
        rw [← hresp]
        exact ⟨rfl, rfl⟩

/-- C8 witness: `days = 9999` and `limit = 0` are rejected with 422; the
parameterless request answers with `days = 7`, `limit = 50`. -/
theorem list_param_validation_defaults_witness :
    resultCode (list_claim_ids_by_status envGood bGood [] 0 "s" (some 9999) none).1
      = some 422 ∧
    resultCode (list_claim_ids_by_status envGood bGood [] 0 "s" none (some 0)).1
      = some 422 ∧
    (ListResp.mk "s" 7 50 0 []).days = 7 ∧ (ListResp.mk "s" 7 50 0 []).limit = 50 := by
  have h := list_param_validation_defaults envGood bGood [] 0 "s" 9999 0 none none
  refine ⟨h.1 (Or.inr (by norm_num)), h.2.1 (Or.inl (by norm_num)), ?_⟩
  exact h.2.2 ⟨"s", 7, 50, 0, []⟩ (by decide)

/-- C9: on success, `fetch_claim` returns a view exposing `claim_id`,
`status`, and a nested AI-annotation group with `fraud_prediction`,
`fraud_score` and `fraud_explanation`, where a NULL stored `fraud_score`
maps to an explicit absent value (not zero) and a non-NULL stored score
is carried through the numeric coercion. -/
theorem fetch_claim_view_fields (env : Env) (b : Backend) (table : List Row)
    (cid : String) (r : Row)
    (hcfg : (get_connection env b).1 = .ok ()) (hq : b.query = .ok ())
    (htop : topByInsertedAt (table.filter (fun x => x.claim_id == cid)) = some r) :
    (get_claim_status_and_ai env b table cid).1 =
      .ok ⟨r.claim_id, r.claim_status,
        ⟨r.fraud_prediction, coerceScore r.fraud_score, r.fraud_explanation⟩⟩ ∧
    (r.fraud_score = none → coerceScore r.fraud_score = none ∧
      coerceScore r.fraud_score ≠ some 0) ∧
    (∀ q, r.fraud_score = some q → coerceScore r.fraud_score = some q) := by
  have hpair := get_connection_ok_pair env b hcfg
  refine ⟨?_, ?_, ?_⟩
  · unfold get_claim_status_and_ai
    rw [hpair.1, hq, htop]
    rfl
  · intro h0
    rw [h0]
    exact ⟨rfl, by simp [coerceScore]⟩
  · intro q hq2
    rw [hq2]
    rfl

/-- C9 witness: the most recent row for `c1` has a NULL score; the view
carries `claim_id`, `status` and the nested group with an absent (not
zero) score. -/
theorem fetch_claim_view_fields_witness :
    (get_claim_status_and_ai envGood bGood [r1, r2] "c1").1 =
      .ok ⟨r2.claim_id, r2.claim_status,
        ⟨r2.fraud_prediction, coerceScore r2.fraud_score, r2.fraud_explanation⟩⟩ ∧
    coerceScore r2.fraud_score = none ∧ coerceScore r2.fraud_score ≠ some 0 := by
  have h := fetch_claim_view_fields envGood bGood [r1, r2] "c1" r2
    (by decide) rfl (by decide)
  exact ⟨h.1, h.2.1 rfl⟩

/-- A `RuntimeError` from `get_connection` happens before any physical
connection attempt. -/
theorem get_connection_runtimeError_no_attempt (env : Env) (b : Backend)
    (h : ∃ m, (get_connection env b).1 = .error (.runtimeError m)) :
    (get_connection env b).2 = 0 := by
  unfold get_connection at h ⊢
  rcases hport : pyInt (env.port.getD "5439") with _ | p
  · rfl
  · obtain ⟨m, hm⟩ := h
    rw [hport] at hm
    dsimp only at hm ⊢
    split at hm
    · rcases hc : b.connect with e | u
      · rw [hc] at hm; simp at hm
      · rw [hc] at hm; simp at hm
    · rename_i hcond
      rw [if_neg hcond]

/-- C10 counterexample: with `REDSHIFT_HOST`, `REDSHIFT_USER` and
`REDSHIFT_PASSWORD` all set and non-empty but `REDSHIFT_DB` set to the
empty string, `get_connection` still raises the missing-configuration
`RuntimeError` — refuting the claimed "if and only if at least one of
HOST, USER, PASSWORD is unset or empty". -/
theorem missing_config_iff_counterexample :
    (get_connection envEmptyDb bGood).1 =
      .error (.runtimeError "Missing Redshift connection environment variables") ∧
    optTruthy envEmptyDb.host = true ∧ optTruthy envEmptyDb.user = true ∧
    optTruthy envEmptyDb.pwd = true := by decide

/-- C10 amended: `get_connection` raises the missing-configuration
`RuntimeError` (always before any connection attempt) if and only if
`REDSHIFT_PORT` (or its default `"5439"`) parses as an integer and at
least one of `REDSHIFT_HOST`, `REDSHIFT_USER`, `REDSHIFT_PASSWORD` is
unset or empty, or `REDSHIFT_DB` is set to the empty string, or the
parsed port is 0.  An unset `REDSHIFT_DB` or `REDSHIFT_PORT` never
triggers it, because they default to `"dev"` and `"5439"`; but a
set-but-empty `REDSHIFT_DB` or a zero port does, and an unparsable
`REDSHIFT_PORT` raises `ValueError` first instead. -/
theorem missing_config_characterization (env : Env) (b : Backend) :
    ((∃ m, (get_connection env b).1 = .error (.runtimeError m)) ↔
      (∃ p, pyInt (env.port.getD "5439") = some p ∧
        (optTruthy env.host = false ∨ optTruthy env.user = false ∨
         optTruthy env.pwd = false ∨ env.db = some "" ∨ p = 0))) ∧
    ((∃ m, (get_connection env b).1 = .error (.runtimeError m)) →
      (get_connection env b).2 = 0) := by
  refine ⟨?_, get_connection_runtimeError_no_attempt env b⟩
  unfold get_connection
  rcases hport : pyInt (env.port.getD "5439") with _ | p <;> simp only [hport]
  · constructor
    · rintro ⟨m, hm⟩
      simp at hm
    · rintro ⟨q, hq2, _⟩
      cases hq2
  · constructor
    · rintro ⟨m, hm⟩
      split at hm
      · rename_i hcond
        rcases hc : b.connect with e | u
        · rw [hc] at hm; simp at hm
        · rw [hc] at hm; simp at hm
      · rename_i hcond
        refine ⟨p, rfl, ?_⟩
        simp only [Bool.and_eq_true, not_and_or, Bool.not_eq_true,
          decide_eq_true_eq, not_not] at hcond
        rcases hcond with ((((hh | hu) | hp2) | hdb) | hp0)
        · exact Or.inl hh
        · exact Or.inr (Or.inl hu)
        · exact Or.inr (Or.inr (Or.inl hp2))
        · refine Or.inr (Or.inr (Or.inr (Or.inl ?_)))
          rcases hdb2 : env.db with _ | s
          · rw [hdb2] at hdb; simp at hdb
          · rw [hdb2] at hdb
            simp only [Option.getD_some] at hdb
            rw [hdb]
        · exact Or.inr (Or.inr (Or.inr (Or.inr hp0)))
    · rintro ⟨q, hq2, hdisj⟩
      injection hq2 with hq2
      subst hq2
      have hcond : ¬(optTruthy env.host && optTruthy env.user && optTruthy env.pwd
          && decide (env.db.getD "dev" ≠ "") && decide (p ≠ 0)) = true := by
        simp only [Bool.and_eq_true, decide_eq_true_eq]
        rintro ⟨⟨⟨⟨hh, hu⟩, hp2⟩, hdb⟩, hp0⟩
        rcases hdisj with h | h | h | h | h
        · rw [h] at hh; cases hh
        · rw [h] at hu; cases hu
        · rw [h] at hp2; cases hp2
        · rw [h] at hdb; simp at hdb
        · exact hp0 h
      rw [if_neg hcond]
      exact ⟨"Missing Redshift connection environment variables", rfl⟩

/-- C10 amended witness: with `REDSHIFT_HOST` unset and everything
else configured, the missing-configuration `RuntimeError` fires, before
any connection attempt. -/
theorem missing_config_characterization_witness :
    (∃ m, (get_connection envNoHost bGood).1 = .error (.runtimeError m)) ∧
    (get_connection envNoHost bGood).2 = 0 := by
  have h := missing_config_characterization envNoHost bGood
  have hm := h.1.mpr ⟨5439, by decide, Or.inl (by decide)⟩
  exact ⟨hm, h.2 hm⟩

end ClaimsApi
